import Mathlib

/-!
Verification development for the splitflap display controller
(`src/splitflap-controller.ino`).  The controller tracks the flap drum
position open-loop and corrects it with a single magnetic home sensor.
We embed the position-tracking state machine shallowly: the hall sensor
is an oracle (a function from a read index to `Bool`), motor stepping
is counted rather than performed, and the C `%` on `int` is modelled by
`Int.tmod` (truncated remainder, the C semantics; every dividend that
occurs in the program is non-negative, where `tmod` agrees with `emod`).
C `int` loop counters that are provably non-negative are modelled as
the integers they are, with fuel driving recursion where the C loop
bound is mutated while iterating.
-/

namespace Splitflap

/-- Configuration constant `NUM_FLAPS` from the source: total number of
flaps on the drum (line 26 of `splitflap-controller.ino`). -/
def NUM_FLAPS : Nat := 40

/-- Configuration constant `HOME_POSITION`: the character position when
the hall sensor reads LOW (line 27). -/
def HOME_POSITION : Int := 2

/-- Configuration constant `STEPS_PER_FLAP`: motor steps per single
flap advance (line 25). -/
def STEPS_PER_FLAP : Nat := 51

/-- Character set `CHARACTERS[]` from line 31 of the source. -/
def CHARACTERS : List Char := String.toList " ABCDEFGHIJKLMNOPQRSTUVWXYZ0123456789.-?!"

/-- The source computes `NUM_CHARACTERS = sizeof(CHARACTERS) - 1`, the
number of characters excluding the terminating NUL, which is the length
of the character list. -/
def NUM_CHARACTERS : Nat := CHARACTERS.length

/-- Controller state: the two global state variables of the source,
`currentPosition` (`-1` = unknown) and `isHomed` (lines 47-48). -/
structure CtrlState where
  currentPosition : Int
  isHomed : Bool
deriving DecidableEq, Repr

/-- Position-tracking effect of `advanceOneFlap` (lines 198-205): the
tracked position advances modulo `NUM_FLAPS` only when it is known
(`currentPosition >= 0`). -/
def advancePos (pos : Int) : Int :=
  if 0 ≤ pos then Int.tmod (pos + 1) (NUM_FLAPS : Int) else pos

/-- Scan loop of `homeDisplay` (lines 237-244): starting with the drum
`total` single steps past the entry point, check the sensor before each
step for at most `budget` checks; return the step index of the first
at-home reading, or `none` when the budget is exhausted undetected. -/
def scanLoop (sensor : Nat → Bool) (total : Nat) : Nat → Option Nat
  | 0 => none
  | b + 1 => if sensor total then some total else scanLoop sensor (total + 1) b

/-- Exit loop of `homeDisplay` (lines 248-252): keep stepping while the
sensor still reads at-home, for at most `budget` further steps; returns
the total step count at which the loop stops. -/
def exitLoop (sensor : Nat → Bool) (total : Nat) : Nat → Nat
  | 0 => total
  | b + 1 => if sensor total then exitLoop sensor (total + 1) b else total

/-- Steps taken before the scan starts: `homeDisplay` first reads the
sensor and, when it is already at home, advances two flaps' worth of
steps to leave the zone (lines 225-228). -/
def homeStart (sensor : Nat → Bool) : Nat :=
  if sensor 0 then 2 * STEPS_PER_FLAP else 0

/-- Operation `homeDisplay` (lines 221-272), with the sensor indexed by
the total number of motor single steps taken since entry (the sensor is
a pure read of the drum position, which only changes when the motor
steps).  Returns the final controller state together with the total
number of single steps taken. -/
def homeDisplay (sensor : Nat → Bool) (s : CtrlState) : CtrlState × Nat :=
  let start := homeStart sensor
  match scanLoop sensor start (STEPS_PER_FLAP * NUM_FLAPS * 2) with
  | some t =>
      ({ currentPosition := HOME_POSITION, isHomed := true },
        exitLoop sensor t STEPS_PER_FLAP)
  | none =>
      ({ currentPosition := -1, isHomed := false },
        start + STEPS_PER_FLAP * NUM_FLAPS * 2)

/-- Loop state of the `goToPosition` move loop (lines 306-319): the C
loop counter `i`, the mutable bound `flapsToMove`, the tracked
`currentPosition`, plus instrumentation counting the single-flap
advances performed and the re-sync events fired. -/
structure MoveLoopState where
  i : Int
  flapsToMove : Int
  pos : Int
  advances : Nat
  resyncs : Nat
deriving DecidableEq, Repr

/-- One iteration of the move loop body (lines 307-316): advance one
flap, then re-check the sensor (indexed by the loop counter); when it
reads at-home while the tracked position differs from `HOME_POSITION`,
snap the position to `HOME_POSITION`, recompute the remaining flaps to
the original target and extend the loop bound to `i + 1 + remaining`. -/
def moveStep (sensor : Int → Bool) (target : Int) (m : MoveLoopState) : MoveLoopState :=
  let pos1 := advancePos m.pos
  if sensor m.i = true ∧ pos1 ≠ HOME_POSITION then
    let remaining := Int.tmod (target - HOME_POSITION + (NUM_FLAPS : Int)) (NUM_FLAPS : Int)
    { i := m.i + 1, flapsToMove := m.i + 1 + remaining, pos := HOME_POSITION,
      advances := m.advances + 1, resyncs := m.resyncs + 1 }
  else
    { i := m.i + 1, flapsToMove := m.flapsToMove, pos := pos1,
      advances := m.advances + 1, resyncs := m.resyncs }

/-- The move loop `for (i = 0; i < flapsToMove; i++)` of lines 306-319.
Because the bound `flapsToMove` is mutated while the loop iterates, the
loop is not structurally terminating; `fuel` bounds the number of
iterations modelled, and `none` means the fuel was exhausted with the
loop still running. -/
def moveLoop (sensor : Int → Bool) (target : Int) : Nat → MoveLoopState → Option MoveLoopState
  | 0, m => if m.i < m.flapsToMove then none else some m
  | f + 1, m =>
      if m.i < m.flapsToMove then moveLoop sensor target f (moveStep sensor target m)
      else some m

/-- Trace of the move loop: the list of loop states visited, starting
with the initial state and recording the state after each iteration. -/
def moveLoopTrace (sensor : Int → Bool) (target : Int) : Nat → MoveLoopState → List MoveLoopState
  | 0, m => [m]
  | f + 1, m =>
      if m.i < m.flapsToMove then m :: moveLoopTrace sensor target f (moveStep sensor target m)
      else [m]

/-- Outcome tag of a positioning call. -/
inductive GoResult where
  | notHomed
  | outOfRange
  | noMotion
  | arrived
  | fuelOut
  | charNotFound
deriving DecidableEq, Repr

/-- Full observable outcome of a positioning call: result tag, final
controller state, number of single-flap advances performed (each one is
`STEPS_PER_FLAP` actuator step calls), and number of re-sync events. -/
structure GoOut where
  result : GoResult
  state : CtrlState
  advances : Nat
  resyncs : Nat
deriving DecidableEq, Repr

/-- Operation `goToPosition` (lines 277-330): fail when not homed, fail
when the target is outside `[0, NUM_FLAPS)`, return immediately when
already at the target, otherwise run the move loop and finally assert
`currentPosition = targetPosition`. -/
def goToPosition (sensor : Int → Bool) (fuel : Nat) (s : CtrlState) (target : Int) : GoOut :=
  if s.isHomed = false then ⟨.notHomed, s, 0, 0⟩
  else if target < 0 ∨ (NUM_FLAPS : Int) ≤ target then ⟨.outOfRange, s, 0, 0⟩
  else
    let flapsToMove := Int.tmod (target - s.currentPosition + (NUM_FLAPS : Int)) (NUM_FLAPS : Int)
    if flapsToMove = 0 then ⟨.noMotion, s, 0, 0⟩
    else
      match moveLoop sensor target fuel ⟨0, flapsToMove, s.currentPosition, 0, 0⟩ with
      | some m => ⟨.arrived, { currentPosition := target, isHomed := s.isHomed }, m.advances, m.resyncs⟩
      | none => ⟨.fuelOut, s, 0, 0⟩

/-- Case normalization of `goToCharacter` (lines 337-339): lowercase
ASCII letters are mapped to uppercase, byte arithmetic as in C. -/
def normalizeChar (c : Char) : Char :=
  if ('a').toNat ≤ c.toNat ∧ c.toNat ≤ ('z').toNat then
    Char.ofNat (c.toNat - ('a').toNat + ('A').toNat)
  else c

/-- First-match linear search of lines 342-348: index of the first
occurrence of `c` in the remaining character list, counting from `i`. -/
def findCharIdx (c : Char) : List Char → Nat → Option Nat
  | [], _ => none
  | x :: xs, i => if x = c then some i else findCharIdx c xs (i + 1)

/-- Operation `goToCharacter` (lines 335-363): normalize case, look the
character up in `CHARACTERS` (first match wins), fail when absent,
otherwise delegate to `goToPosition` with the resolved index. -/
def goToCharacter (sensor : Int → Bool) (fuel : Nat) (s : CtrlState) (c : Char) : GoOut :=
  match findCharIdx (normalizeChar c) CHARACTERS 0 with
  | none => ⟨.charNotFound, s, 0, 0⟩
  | some i => goToPosition sensor fuel s (i : Int)

/-- Report produced by `showStatus` (lines 368-392): homed flag,
position (or `-1` for unknown), and a live sensor reading. -/
structure Status where
  homed : Bool
  position : Int
  atHome : Bool
deriving DecidableEq, Repr

/-- Operation `showStatus`: a pure read that reports the state and a
live sensor sample, and returns the controller state unchanged. -/
def showStatus (sensorNow : Bool) (s : CtrlState) : Status × CtrlState :=
  (⟨s.isHomed, s.currentPosition, sensorNow⟩, s)

/-- Invariant on the tracked position: it is either the unknown marker
`-1` or a valid flap index in `[0, NUM_FLAPS)`. -/
def PosInv (s : CtrlState) : Prop :=
  s.currentPosition = -1 ∨ (0 ≤ s.currentPosition ∧ s.currentPosition < (NUM_FLAPS : Int))

instance : DecidablePred PosInv := fun s => by
  unfold PosInv; infer_instance

/-- Sensor that never reports at-home (indexed by move-loop check). -/
def neverHome : Int → Bool := fun _ => false

/-- Sensor that never reports at-home (indexed by motor step count). -/
def neverHomeStep : Nat → Bool := fun _ => false

/-- Drift-injection sensor of the §8 scenario: reports at-home exactly
at the check following the 3rd single-flap advance (check index 2). -/
def driftSensor : Int → Bool := fun i => i == 2

/-- Sensor whose at-home zone covers the two consecutive flap-boundary
checks 2 and 3 of a move — a single contiguous pass through the zone. -/
def wideZoneSensor : Int → Bool := fun i => i == 2 || i == 3

/-- Homing-scenario sensor of §8: reports at-home exactly on motor
steps `[100, 100 + STEPS_PER_FLAP)`. -/
def zoneAt100 : Nat → Bool := fun n => decide (100 ≤ n ∧ n < 100 + STEPS_PER_FLAP)

/-- The exit loop never steps more than its budget. -/
theorem exitLoop_le (sensor : Nat → Bool) : ∀ (b t : Nat), exitLoop sensor t b ≤ t + b := by
  intro b
  induction b with
  | zero => intro t; simp [exitLoop]
  | succ b ih =>
      intro t
      simp only [exitLoop]
      split
      · have := ih (t + 1); omega
      · omega

/-- The exit loop only moves forward. -/
theorem le_exitLoop (sensor : Nat → Bool) : ∀ (b t : Nat), t ≤ exitLoop sensor t b := by
  intro b
  induction b with
  | zero => intro t; simp [exitLoop]
  | succ b ih =>
      intro t
      simp only [exitLoop]
      split
      · have := ih (t + 1); omega
      · omega

/-- When the exit loop stops strictly before its budget is exhausted,
it stopped because the sensor reads not-at-home there. -/
theorem exitLoop_stop (sensor : Nat → Bool) :
    ∀ (b t : Nat), exitLoop sensor t b < t + b → sensor (exitLoop sensor t b) = false := by
  intro b
  induction b with
  | zero => intro t h; simp [exitLoop] at h
  | succ b ih =>
      intro t
      simp only [exitLoop]
      split
      · intro h
        have := le_exitLoop sensor b (t + 1)
        exact ih (t + 1) (by omega)
      · rename_i hfalse
        intro _
        simpa using hfalse

/-- Every step the exit loop takes is taken while the sensor still
reads at-home. -/
theorem exitLoop_all_home (sensor : Nat → Bool) :
    ∀ (b t u : Nat), t ≤ u → u < exitLoop sensor t b → sensor u = true := by
  intro b
  induction b with
  | zero => intro t u h1 h2; simp [exitLoop] at h2; omega
  | succ b ih =>
      intro t u h1
      simp only [exitLoop]
      split
      · intro h2
        rcases Nat.eq_or_lt_of_le h1 with rfl | hlt
        · assumption
        · exact ih (t + 1) u hlt h2
      · intro h2; omega

/-- A scan over a window where the sensor never reads at-home finds
nothing. -/
theorem scanLoop_none (sensor : Nat → Bool) :
    ∀ (b t0 : Nat), (∀ k, k < b → sensor (t0 + k) = false) → scanLoop sensor t0 b = none := by
  intro b
  induction b with
  | zero => intro t0 _; rfl
  | succ b ih =>
      intro t0 h
      have h0 : sensor t0 = false := by simpa using h 0 (Nat.succ_pos b)
      simp only [scanLoop, h0]
      simp only [Bool.false_eq_true, if_false]
      refine ih (t0 + 1) (fun k hk => ?_)
      have := h (k + 1) (by omega)
      rwa [show t0 + (k + 1) = t0 + 1 + k by omega] at this

/-- With a sensor that never reads at-home, the move loop runs exactly
its initial bound of iterations and fires no re-sync. -/
theorem moveLoop_no_home (sensor : Int → Bool) (target : Int) (hs : ∀ i, sensor i = false) :
    ∀ (fuel : Nat) (m : MoveLoopState), m.i ≤ m.flapsToMove →
      m.flapsToMove - m.i ≤ (fuel : Int) →
      ∃ mf, moveLoop sensor target fuel m = some mf ∧
        mf.advances = m.advances + (m.flapsToMove - m.i).toNat ∧
        mf.resyncs = m.resyncs := by
  intro fuel
  induction fuel with
  | zero =>
      rintro ⟨mi, mftm, mp, ma, mr⟩ h1 h2
      simp only [moveLoop]
      simp only at h1 h2
      rw [if_neg (by omega)]
      exact ⟨_, rfl, by simp; omega, rfl⟩
  | succ f ih =>
      rintro ⟨mi, mftm, mp, ma, mr⟩ h1 h2
      simp only at h1 h2
      simp only [moveLoop]
      by_cases hlt : mi < mftm
      · rw [if_pos (by simpa using hlt)]
        have hstep : moveStep sensor target ⟨mi, mftm, mp, ma, mr⟩ =
            ⟨mi + 1, mftm, advancePos mp, ma + 1, mr⟩ := by
          simp [moveStep, hs mi]
        rw [hstep]
        obtain ⟨mf, hml, hadv, hrs⟩ :=
          ih ⟨mi + 1, mftm, advancePos mp, ma + 1, mr⟩ (by simp; omega) (by simp; omega)
        refine ⟨mf, hml, ?_, hrs⟩
        simp only at hadv
        omega
      · rw [if_neg (by simpa using hlt)]
        exact ⟨_, rfl, by simp; omega, rfl⟩

/-- C2: in the drift-injection scenario (NUM_FLAPS 40, HOME_POSITION 2,
start homed at position 5, target 10, sensor at-home exactly once, at
the check following the 3rd single-flap advance), the move loop reaches
loop state `i = 2, flapsToMove = 5, pos = 7`, the 3rd advance takes the
tracked position to 8, the re-sync at that check snaps the position to
2 and extends the bound to `2 + 1 + 8 = 11`, and the call terminates
with position 10 after 11 advances. -/
theorem C2_drift_injection_scenario :
    (⟨2, 5, 7, 2, 0⟩ : MoveLoopState) ∈ moveLoopTrace driftSensor 10 60 ⟨0, 5, 5, 0, 0⟩ ∧
    advancePos 7 = 8 ∧
    moveStep driftSensor 10 ⟨2, 5, 7, 2, 0⟩ = ⟨3, 11, 2, 3, 1⟩ ∧
    (⟨3, 11, 2, 3, 1⟩ : MoveLoopState) ∈ moveLoopTrace driftSensor 10 60 ⟨0, 5, 5, 0, 0⟩ ∧
    goToPosition driftSensor 60 ⟨5, true⟩ 10 = ⟨.arrived, ⟨10, true⟩, 11, 1⟩ := by
  refine ⟨by decide, by decide, by decide, by decide, by decide⟩

/-- C5: `goToPosition` fails with the not-homed condition whenever the
controller is not homed, and with the out-of-range condition when it is
homed but the target lies outside `[0, NUM_FLAPS)`; in both cases no
actuator step call occurs and the state is unchanged. -/
theorem C5_goToPosition_precondition_failures
    (sensor : Int → Bool) (fuel : Nat) (s : CtrlState) (target : Int) :
    (s.isHomed = false → goToPosition sensor fuel s target = ⟨.notHomed, s, 0, 0⟩) ∧
    (s.isHomed = true → (target < 0 ∨ (NUM_FLAPS : Int) ≤ target) →
      goToPosition sensor fuel s target = ⟨.outOfRange, s, 0, 0⟩) := by
  constructor
  · intro h
    simp only [goToPosition]
    rw [if_pos h]
  · intro h hr
    simp only [goToPosition]
    rw [if_neg (by simp [h]), if_pos hr]

/-- Witness for C5 at concrete inputs: a never-homed state rejects
target 5 with `notHomed`, and a homed state rejects target 40 with
`outOfRange`, both with zero advances and unchanged state. -/
theorem C5_witness :
    goToPosition neverHome 10 ⟨-1, false⟩ 5 = ⟨.notHomed, ⟨-1, false⟩, 0, 0⟩ ∧
    goToPosition neverHome 10 ⟨3, true⟩ 40 = ⟨.outOfRange, ⟨3, true⟩, 0, 0⟩ :=
  ⟨(C5_goToPosition_precondition_failures neverHome 10 ⟨-1, false⟩ 5).1 rfl,
   (C5_goToPosition_precondition_failures neverHome 10 ⟨3, true⟩ 40).2 rfl
     (Or.inr (by decide))⟩

/-- C6 counterexample: with the sensor at-home on the single contiguous
check range `{2, 3}` (one physical pass through the zone), the move
from position 5 to target 10 fires the re-sync twice — the check right
after a re-sync sees position `HOME_POSITION + 1`, not `HOME_POSITION`,
so a still-at-home sensor re-triggers it. -/
theorem C6_counterexample_double_resync :
    goToPosition wideZoneSensor 60 ⟨5, true⟩ 10 = ⟨.arrived, ⟨10, true⟩, 12, 2⟩ := by
  decide

/-- C6 (amended): a re-sync leaves the tracked position at
`HOME_POSITION`, but the next iteration advances it off
`HOME_POSITION` before checking, so the immediately following
flap-boundary check fires another re-sync exactly when the sensor still
reports at-home there. -/
theorem C6_resync_refires_iff_sensor_still_home
    (sensor : Int → Bool) (target : Int) (m : MoveLoopState)
    (h : (moveStep sensor target m).resyncs = m.resyncs + 1) :
    (moveStep sensor target m).pos = HOME_POSITION ∧
    ((moveStep sensor target (moveStep sensor target m)).resyncs
        = (moveStep sensor target m).resyncs + 1 ↔ sensor (m.i + 1) = true) := by
  by_cases hc : sensor m.i = true ∧ advancePos m.pos ≠ HOME_POSITION
  · have hm1 : moveStep sensor target m =
        ⟨m.i + 1,
          m.i + 1 + Int.tmod (target - HOME_POSITION + (NUM_FLAPS : Int)) (NUM_FLAPS : Int),
          HOME_POSITION, m.advances + 1, m.resyncs + 1⟩ := by
      simp only [moveStep]
      rw [if_pos hc]
    rw [hm1]
    refine ⟨rfl, ?_⟩
    have hadv2 : advancePos HOME_POSITION ≠ HOME_POSITION := by decide
    constructor
    · intro h2
      by_contra hnot
      have hsf : sensor (m.i + 1) = false := by
        cases hsv : sensor (m.i + 1) <;> simp_all
      have : moveStep sensor target
          ⟨m.i + 1,
            m.i + 1 + Int.tmod (target - HOME_POSITION + (NUM_FLAPS : Int)) (NUM_FLAPS : Int),
            HOME_POSITION, m.advances + 1, m.resyncs + 1⟩ =
          ⟨m.i + 1 + 1,
            m.i + 1 + Int.tmod (target - HOME_POSITION + (NUM_FLAPS : Int)) (NUM_FLAPS : Int),
            advancePos HOME_POSITION, m.advances + 1 + 1, m.resyncs + 1⟩ := by
        simp only [moveStep]
        rw [if_neg (by simp [hsf])]
      rw [this] at h2
      simp at h2
    · intro hst
      simp only [moveStep]
      rw [if_pos ⟨hst, hadv2⟩]
  · exfalso
    have : moveStep sensor target m =
        ⟨m.i + 1, m.flapsToMove, advancePos m.pos, m.advances + 1, m.resyncs⟩ := by
      simp only [moveStep]
      rw [if_neg hc]
    rw [this] at h
    simp at h

/-- Witness for C6 (amended) at a concrete input: in the wide-zone
scenario the re-sync at check 2 (position snapped from 8 to 2) is
followed at check 3, where the sensor still reads at-home, by a second
re-sync. -/
theorem C6_witness :
    (moveStep wideZoneSensor 10 ⟨2, 5, 7, 2, 0⟩).resyncs = (0 : Nat) + 1 ∧
    (moveStep wideZoneSensor 10 ⟨2, 5, 7, 2, 0⟩).pos = HOME_POSITION ∧
    ((moveStep wideZoneSensor 10 (moveStep wideZoneSensor 10 ⟨2, 5, 7, 2, 0⟩)).resyncs
        = (moveStep wideZoneSensor 10 ⟨2, 5, 7, 2, 0⟩).resyncs + 1 ↔
      wideZoneSensor ((2 : Int) + 1) = true) := by
  have h := C6_resync_refires_iff_sensor_still_home wideZoneSensor 10 ⟨2, 5, 7, 2, 0⟩ (by decide)
  exact ⟨by decide, h.1, h.2⟩

/-- C7: the source's character set does NOT have length `NUM_FLAPS`:
`CHARACTERS` holds 41 characters while `NUM_FLAPS = 40`, so the last
character has no flap position. -/
theorem C7_character_set_length_mismatch :
    NUM_CHARACTERS = 41 ∧ NUM_FLAPS = 40 ∧ NUM_CHARACTERS ≠ NUM_FLAPS := by
  refine ⟨by decide, by decide, by decide⟩

/-- C8: when homed at a valid position, moving to the current position
is an idempotent no-op: it reports success immediately with zero
advances and the state unchanged. -/
theorem C8_goToPosition_idempotent
    (sensor : Int → Bool) (fuel : Nat) (s : CtrlState)
    (h : s.isHomed = true) (h0 : 0 ≤ s.currentPosition)
    (h1 : s.currentPosition < (NUM_FLAPS : Int)) :
    goToPosition sensor fuel s s.currentPosition = ⟨.noMotion, s, 0, 0⟩ := by
  have h40 : ((NUM_FLAPS : Nat) : Int) = 40 := by decide
  simp only [goToPosition]
  rw [if_neg (by simp [h]), if_neg (by omega)]
  have hftm : Int.tmod (s.currentPosition - s.currentPosition + (NUM_FLAPS : Int))
      (NUM_FLAPS : Int) = 0 := by
    rw [show s.currentPosition - s.currentPosition + (NUM_FLAPS : Int) = (NUM_FLAPS : Int) by ring]
    decide
  rw [if_pos hftm]

/-- Witness for C8 at a concrete input: from the homed state at
position 7, `goToPosition 7` is a no-op. -/
theorem C8_witness :
    goToPosition neverHome 40 ⟨7, true⟩ 7 = ⟨.noMotion, ⟨7, true⟩, 0, 0⟩ :=
  C8_goToPosition_idempotent neverHome 40 ⟨7, true⟩ rfl (by decide) (by decide)

/-- C1: from a homed state at a valid position, a move to a valid
target with a sensor that never reports at-home performs exactly
`(target - p + NUM_FLAPS) mod NUM_FLAPS` single-flap advances and ends
with the tracked position equal to the target and the controller still
homed. -/
theorem C1_goToPosition_no_drift
    (sensor : Int → Bool) (hs : ∀ i, sensor i = false)
    (fuel : Nat) (hfuel : NUM_FLAPS ≤ fuel)
    (p target : Int) (hp0 : 0 ≤ p) (hp1 : p < (NUM_FLAPS : Int))
    (ht0 : 0 ≤ target) (ht1 : target < (NUM_FLAPS : Int)) :
    (goToPosition sensor fuel ⟨p, true⟩ target).advances
        = (Int.tmod (target - p + (NUM_FLAPS : Int)) (NUM_FLAPS : Int)).toNat ∧
    (goToPosition sensor fuel ⟨p, true⟩ target).state = ⟨target, true⟩ := by
  have h40 : (NUM_FLAPS : Int) = 40 := by decide
  rw [h40] at hp1 ht1
  rw [show NUM_FLAPS = 40 from rfl] at hfuel
  have htm : Int.tmod (target - p + (NUM_FLAPS : Int)) (NUM_FLAPS : Int)
      = (target - p + 40) % 40 := by
    rw [h40]
    exact Int.tmod_eq_emod (by omega) (by omega)
  simp only [goToPosition]
  rw [if_neg (by simp), if_neg (by omega)]
  by_cases hz : Int.tmod (target - p + (NUM_FLAPS : Int)) (NUM_FLAPS : Int) = 0
  · rw [if_pos hz]
    have hpt : p = target := by
      rw [htm] at hz
      omega
    constructor
    · simp [hz]
    · simp [hpt]
  · rw [if_neg hz]
    obtain ⟨mf, hml, hadv, hrs⟩ := moveLoop_no_home sensor target hs fuel
      ⟨0, Int.tmod (target - p + (NUM_FLAPS : Int)) (NUM_FLAPS : Int), p, 0, 0⟩
      (by dsimp only; rw [htm]; omega)
      (by dsimp only; rw [htm]; omega)
    rw [hml]
    refine ⟨?_, rfl⟩
    show mf.advances = _
    simp only at hadv
    omega

/-- Witness for C1 at a concrete input: moving from position 5 to
target 10 with a sensor that never reads at-home takes 5 advances and
lands on position 10, still homed. -/
theorem C1_witness :
    (goToPosition neverHome 40 ⟨5, true⟩ 10).advances = 5 ∧
    (goToPosition neverHome 40 ⟨5, true⟩ 10).state = ⟨10, true⟩ := by
  have h := C1_goToPosition_no_drift neverHome (fun _ => rfl) 40 (by decide)
    5 10 (by decide) (by decide) (by decide) (by decide)
  refine ⟨?_, h.2⟩
  rw [h.1]
  decide

/-- C3: whenever the homing scan (run after the two-flap escape move
taken when the sensor reads at-home at entry) first detects the home
zone within the `STEPS_PER_FLAP * NUM_FLAPS * 2` step budget, say at
step `t`, `homeDisplay` ends homed at `HOME_POSITION`, and its total
step count `f` satisfies `t ≤ f ≤ t + STEPS_PER_FLAP`, with every step
in `[t, f)` taken while the sensor still read at-home and, when the
extra budget was not exhausted, the sensor reading not-at-home at `f`. -/
theorem C3_homing_success (sensor : Nat → Bool) (s : CtrlState) (t : Nat)
    (h : scanLoop sensor (homeStart sensor) (STEPS_PER_FLAP * NUM_FLAPS * 2) = some t) :
    (homeDisplay sensor s).1 = ⟨HOME_POSITION, true⟩ ∧
    t ≤ (homeDisplay sensor s).2 ∧
    (homeDisplay sensor s).2 ≤ t + STEPS_PER_FLAP ∧
    ((homeDisplay sensor s).2 < t + STEPS_PER_FLAP → sensor ((homeDisplay sensor s).2) = false) ∧
    (∀ u, t ≤ u → u < (homeDisplay sensor s).2 → sensor u = true) := by
  have hd : homeDisplay sensor s = (⟨HOME_POSITION, true⟩, exitLoop sensor t STEPS_PER_FLAP) := by
    simp only [homeDisplay]
    rw [h]
  rw [hd]
  exact ⟨rfl, le_exitLoop sensor STEPS_PER_FLAP t, exitLoop_le sensor STEPS_PER_FLAP t,
    fun hlt => exitLoop_stop sensor STEPS_PER_FLAP t hlt,
    fun u hu1 hu2 => exitLoop_all_home sensor STEPS_PER_FLAP t u hu1 hu2⟩

/-- Witness for C3 at the §8 scenario: the sensor reads at-home exactly
on steps `[100, 100 + STEPS_PER_FLAP)`; the scan detects it at step 100
and homing ends homed at `HOME_POSITION` within the extra budget. -/
theorem C3_witness :
    scanLoop zoneAt100 (homeStart zoneAt100) (STEPS_PER_FLAP * NUM_FLAPS * 2) = some 100 ∧
    (homeDisplay zoneAt100 ⟨-1, false⟩).1 = ⟨HOME_POSITION, true⟩ ∧
    (homeDisplay zoneAt100 ⟨-1, false⟩).2 ≤ 100 + STEPS_PER_FLAP := by
  have hscan : scanLoop zoneAt100 (homeStart zoneAt100) (STEPS_PER_FLAP * NUM_FLAPS * 2)
      = some 100 := by decide
  have h := C3_homing_success zoneAt100 ⟨-1, false⟩ 100 hscan
  exact ⟨hscan, h.1, h.2.2.1⟩

/-- C4: when the sensor never reads at-home during the whole scan
budget, `homeDisplay` ends not homed with the position unknown (`-1`),
from any initial state. -/
theorem C4_homing_failure (sensor : Nat → Bool) (s : CtrlState)
    (h : ∀ k, k < STEPS_PER_FLAP * NUM_FLAPS * 2 → sensor k = false) :
    (homeDisplay sensor s).1 = ⟨-1, false⟩ := by
  have h0 : sensor 0 = false := h 0 (by decide)
  have hstart : homeStart sensor = 0 := by simp [homeStart, h0]
  have hnone : scanLoop sensor 0 (STEPS_PER_FLAP * NUM_FLAPS * 2) = none :=
    scanLoop_none sensor (STEPS_PER_FLAP * NUM_FLAPS * 2) 0 (fun k hk => by simpa using h k hk)
  simp only [homeDisplay]
  rw [hstart, hnone]

/-- Witness for C4 at a concrete input: with the constantly-false
sensor, homing from a previously homed state at position 5 ends not
homed with position unknown. -/
theorem C4_witness :
    (homeDisplay neverHomeStep ⟨5, true⟩).1 = ⟨-1, false⟩ ∧ neverHomeStep 0 = false :=
  ⟨C4_homing_failure neverHomeStep ⟨5, true⟩ (fun _ _ => rfl), rfl⟩

/-- Helper for C9: `goToPosition` preserves the position invariant. -/
theorem goToPosition_preserves_PosInv
    (sensor : Int → Bool) (fuel : Nat) (s : CtrlState) (target : Int) (hs : PosInv s) :
    PosInv (goToPosition sensor fuel s target).state := by
  simp only [goToPosition]
  by_cases h1 : s.isHomed = false
  · rw [if_pos h1]; exact hs
  · rw [if_neg h1]
    by_cases h2 : target < 0 ∨ (NUM_FLAPS : Int) ≤ target
    · rw [if_pos h2]; exact hs
    · rw [if_neg h2]
      by_cases h3 : Int.tmod (target - s.currentPosition + (NUM_FLAPS : Int)) (NUM_FLAPS : Int) = 0
      · rw [if_pos h3]; exact hs
      · rw [if_neg h3]
        cases hml : moveLoop sensor target fuel
            ⟨0, Int.tmod (target - s.currentPosition + (NUM_FLAPS : Int)) (NUM_FLAPS : Int),
              s.currentPosition, 0, 0⟩ with
        | none => exact hs
        | some m =>
            push_neg at h2
            have h40 : (NUM_FLAPS : Int) = 40 := by decide
            have hb : (0 : Int) ≤ target ∧ target < (NUM_FLAPS : Int) := by omega
            exact Or.inr hb

/-- Helper for C9: `goToCharacter` preserves the position invariant. -/
theorem goToCharacter_preserves_PosInv
    (sensor : Int → Bool) (fuel : Nat) (s : CtrlState) (c : Char) (hs : PosInv s) :
    PosInv (goToCharacter sensor fuel s c).state := by
  simp only [goToCharacter]
  cases hf : findCharIdx (normalizeChar c) CHARACTERS 0 with
  | none => exact hs
  | some i => exact goToPosition_preserves_PosInv sensor fuel s (i : Int) hs

/-- C9: every controller operation preserves the invariant that the
tracked position is either unknown (`-1`) or a valid flap index in
`[0, NUM_FLAPS)`; `showStatus` leaves the state unchanged, and a
single-flap advance with the position unknown leaves it unknown. -/
theorem C9_position_invariant_preserved
    (stepSensor : Nat → Bool) (sensor : Int → Bool) (fuel : Nat) (live : Bool)
    (s : CtrlState) (target : Int) (c : Char) (hs : PosInv s) :
    PosInv (homeDisplay stepSensor s).1 ∧
    PosInv (goToPosition sensor fuel s target).state ∧
    PosInv (goToCharacter sensor fuel s c).state ∧
    (showStatus live s).2 = s ∧
    advancePos (-1) = -1 := by
  refine ⟨?_, goToPosition_preserves_PosInv sensor fuel s target hs,
    goToCharacter_preserves_PosInv sensor fuel s c hs, rfl, by decide⟩
  simp only [homeDisplay]
  cases hsc : scanLoop stepSensor (homeStart stepSensor) (STEPS_PER_FLAP * NUM_FLAPS * 2) with
  | none => exact Or.inl rfl
  | some t =>
      have hb : (0 : Int) ≤ HOME_POSITION ∧ HOME_POSITION < (NUM_FLAPS : Int) := by decide
      exact Or.inr hb

/-- Witness for C9 at concrete inputs, starting from the boot state
with unknown position. -/
theorem C9_witness :
    PosInv ⟨-1, false⟩ ∧
    PosInv (homeDisplay neverHomeStep ⟨-1, false⟩).1 ∧
    PosInv (goToPosition neverHome 5 ⟨-1, false⟩ 3).state ∧
    PosInv (goToCharacter neverHome 5 ⟨-1, false⟩ (Char.ofNat 65)).state ∧
    (showStatus false ⟨-1, false⟩).2 = ⟨-1, false⟩ ∧
    advancePos (-1) = -1 := by
  have h := C9_position_invariant_preserved neverHomeStep neverHome 5 false
    ⟨-1, false⟩ 3 (Char.ofNat 65) (by decide)
  exact ⟨by decide, h.1, h.2.1, h.2.2.1, h.2.2.2.1, h.2.2.2.2⟩

/-- C10: a character whose first-match index in `CHARACTERS` is at
least `NUM_FLAPS` passes the lookup of `goToCharacter` without a
character-not-found failure, but the delegated `goToPosition` rejects
the index as out of range, with zero advances and the state unchanged;
such a trailing character can never be displayed. -/
theorem C10_trailing_character_out_of_range
    (sensor : Int → Bool) (fuel : Nat) (s : CtrlState) (c : Char) (i : Nat)
    (hfind : findCharIdx (normalizeChar c) CHARACTERS 0 = some i)
    (hge : NUM_FLAPS ≤ i) (hh : s.isHomed = true) :
    goToCharacter sensor fuel s c = ⟨.outOfRange, s, 0, 0⟩ := by
  simp only [goToCharacter]
  rw [hfind]
  simp only [goToPosition]
  rw [if_neg (by simp [hh]), if_pos (Or.inr (by exact_mod_cast hge))]

/-- Witness for C10 at the concrete trailing character of the default
set: the exclamation mark sits at first-match index 40, and from a
homed state `goToCharacter` fails out-of-range with no motion. -/
theorem C10_witness :
    findCharIdx (normalizeChar (Char.ofNat 33)) CHARACTERS 0 = some 40 ∧
    NUM_FLAPS ≤ 40 ∧
    goToCharacter neverHome 5 ⟨0, true⟩ (Char.ofNat 33) = ⟨.outOfRange, ⟨0, true⟩, 0, 0⟩ := by
  refine ⟨by decide, by decide, ?_⟩
  exact C10_trailing_character_out_of_range neverHome 5 ⟨0, true⟩ (Char.ofNat 33) 40
    (by decide) (by decide) rfl

end Splitflap
